import Mathlib

/-!
Shallow embedding of `src/golem/task/docker_job.py`.

The docker client (`docker.Client`) is modelled as a record of pure
functions (`Runtime`): each field gives the outcome of one control-plane
call, either a result or a raised error (`Except PyErr`).  The Python
methods mutate `self` and perform runtime calls and file writes; they are
embedded as state-passing functions returning the raised-or-returned
value, the updated job record, the list of file writes performed, and the
list of runtime requests issued.  Each issued request is paired with the
job's cached `state` field at the moment the request is issued, so that
temporal statements ("the cached state immediately before removal")
can be expressed.  Parameter values are modelled by the serializable
values the code exercises (ints and quote-free strings); string `repr`
is single-quote wrapping, as in Python for such strings.
-/

deriving instance DecidableEq for Except

/-- Python exceptions raised by the code under `src/golem/task/docker_job.py`:
`docker.errors.NotFound`, `docker.errors.APIError`, `ValueError`
(the validation failure raised by `DockerImage.__init__`), and
`AssertionError` (from `assert` statements). -/
inductive PyErr where
  | NotFound
  | APIError
  | ValueError
  | AssertionError
  deriving DecidableEq, Repr

/-- Serializable parameter values passed to a job (model universe: Python
ints and quote-free strings). -/
inductive PyValue where
  | int (n : Int)
  | str (s : String)
  deriving DecidableEq, Repr

/-- A single-quote character, written via its code point. -/
def squote : String := String.singleton (Char.ofNat 39)

/-- Python `repr` of a parameter value: decimal for ints, single-quote
wrapping for (quote-free, escape-free) strings. -/
def pyRepr : PyValue → String
  | PyValue.int n => toString n
  | PyValue.str s => squote ++ s ++ squote

/-- `posixpath.join` for the two-argument calls made by the code. -/
def pathJoin (a b : String) : String :=
  if b.startsWith "/" then b
  else if a = "" || a.endsWith "/" then a ++ b
  else a ++ "/" ++ b

/-- Image metadata returned by `client.inspect_image`: the fields the code
reads (`Id`, `RepoTags`). -/
structure ImageInfo where
  Id : String
  RepoTags : List String
  deriving DecidableEq, Repr

/-- Container-creation result returned by `client.create_container`: the
field the code reads (`Id`). -/
structure ContainerInfo where
  Id : String
  deriving DecidableEq, Repr

/-- Container-inspection result returned by `client.inspect_container`: the
field the code reads (`State.Status`). -/
structure InspectResult where
  status : String
  deriving DecidableEq, Repr

/-- One host-to-container bind mount entry of the `binds` dict passed to
`client.create_host_config`. -/
structure BindEntry where
  host : String
  bind : String
  mode : String
  deriving DecidableEq, Repr

/-- The arguments the code passes to `client.create_container`. -/
structure CreateArgs where
  image : String
  volumes : List String
  binds : List BindEntry
  network_disabled : Bool
  entrypoint : List String
  working_dir : String
  deriving DecidableEq, Repr

/-- A request issued to the docker control plane. -/
inductive Req where
  | create_container (args : CreateArgs)
  | start (cid : String)
  | inspect_container (cid : String)
  | kill (cid : String)
  | remove_container (cid : String) (force : Bool)
  | wait (cid : String) (timeout : Option Nat)
  deriving DecidableEq, Repr

/-- A request together with the job's cached `state` field at the moment
the request is issued. -/
structure ReqEntry where
  req : Req
  stateAt : String
  deriving DecidableEq, Repr

/-- One file written by the driver: its path and the list of chunks passed
to successive `write` calls (the file's content is their concatenation). -/
structure FileWrite where
  path : String
  chunks : List String
  deriving DecidableEq, Repr

/-- The docker control plane, modelled as pure outcome functions: what each
client call returns or raises.  Container inspection is modelled as total
(inspection succeeds and yields a status string); container wait yields a
natural-number exit code when it succeeds. -/
structure Runtime where
  inspect_image : String → Except PyErr (Option ImageInfo)
  create_container : CreateArgs → Except PyErr ContainerInfo
  start_container : String → Except PyErr Unit
  inspect_container : String → InspectResult
  kill_container : String → Except PyErr Unit
  remove_container : String → Except PyErr Unit
  wait_container : String → Option Nat → Except PyErr Nat

/-- The fields of a `DockerImage` object. -/
structure DockerImage where
  repository : String
  id : Option String
  tag : String
  name : String
  deriving DecidableEq, Repr

/-- Field computation of `DockerImage.__init__` before validation:
`tag if tag else "latest"` (Python truthiness: `None` and `""` both fall
back to `"latest"`) and `name = "{}:{}".format(repository, tag)`. -/
def mkImage0 (repository : String) (id : Option String) (tag : Option String) : DockerImage :=
  let t := match tag with
    | some s => if s = "" then "latest" else s
    | none => "latest"
  { repository := repository, id := id, tag := t, name := repository ++ ":" ++ t }

/-- The key `DockerImage._check` inspects by: `self.id` if truthy (not
`None` and not empty), else `self.name`. -/
def lookupKey (img : DockerImage) : String :=
  match img.id with
  | some s => if s = "" then img.name else s
  | none => img.name

/-- `DockerImage._check`: inspect the image, `assert info` (a falsy result
raises `AssertionError`), then return whether `self.name` is among the
metadata's `RepoTags` and `self.id`, if present, equals the metadata's
`Id`. -/
def DockerImage.check (rt : Runtime) (img : DockerImage) : Except PyErr Bool :=
  match rt.inspect_image (lookupKey img) with
  | Except.error e => Except.error e
  | Except.ok none => Except.error PyErr.AssertionError
  | Except.ok (some info) =>
      Except.ok (info.RepoTags.contains img.name &&
        (match img.id with
         | none => true
         | some s => info.Id == s))

/-- `DockerImage.__init__`: compute the fields, run `_check`, and raise
`ValueError` if the check returns false; errors raised by `_check`
propagate. -/
def DockerImage.construct (rt : Runtime) (repository : String)
    (id : Option String) (tag : Option String) : Except PyErr DockerImage :=
  let img := mkImage0 repository id tag
  match DockerImage.check rt img with
  | Except.error e => Except.error e
  | Except.ok true => Except.ok img
  | Except.ok false => Except.error PyErr.ValueError

/-- The `except` clauses of `DockerImage.is_available`: `NotFound` becomes
`False`; `APIError` becomes `False` if a tag was given, else re-raised;
`ValueError` becomes `False`; anything else (here `AssertionError`)
propagates uncaught. -/
def DockerImage.handleAvailErr (tag : Option String) : PyErr → Except PyErr Bool
  | PyErr.NotFound => Except.ok false
  | PyErr.APIError => if tag = none then Except.error PyErr.APIError else Except.ok false
  | PyErr.ValueError => Except.ok false
  | PyErr.AssertionError => Except.error PyErr.AssertionError

/-- `DockerImage.is_available`: construct the image (validating it), call
`_check` once more and return its result, converting errors per the
`except` clauses. -/
def DockerImage.is_available (rt : Runtime) (repository : String)
    (id : Option String) (tag : Option String) : Except PyErr Bool :=
  match DockerImage.construct rt repository id tag with
  | Except.error e => DockerImage.handleAvailErr tag e
  | Except.ok image =>
    match DockerImage.check rt image with
    | Except.error e => DockerImage.handleAvailErr tag e
    | Except.ok b => Except.ok b

/-- `DockerJob.STATE_NEW`. -/
def DockerJob.STATE_NEW : String := "new"

/-- `DockerJob.STATE_CREATED`. -/
def DockerJob.STATE_CREATED : String := "created"

/-- `DockerJob.STATE_RUNNING`. -/
def DockerJob.STATE_RUNNING : String := "running"

/-- `DockerJob.STATE_EXITED`. -/
def DockerJob.STATE_EXITED : String := "exited"

/-- `DockerJob.STATE_STOPPED`. -/
def DockerJob.STATE_STOPPED : String := "stopped"

/-- `DockerJob.STATE_KILLED`. -/
def DockerJob.STATE_KILLED : String := "killed"

/-- `DockerJob.STATE_REMOVED`. -/
def DockerJob.STATE_REMOVED : String := "removed"

/-- `DockerJob.TASK_SCRIPT`. -/
def DockerJob.TASK_SCRIPT : String := "job.py"

/-- `DockerJob.PARAMS_FILE`. -/
def DockerJob.PARAMS_FILE : String := "params.py"

/-- `DockerJob.RESOURCES_DIR`. -/
def DockerJob.RESOURCES_DIR : String := "/golem/resources/"

/-- `DockerJob.OUTPUT_DIR`. -/
def DockerJob.OUTPUT_DIR : String := "/golem/output/"

/-- The fields of a `DockerJob` object. -/
structure DockerJob where
  image : DockerImage
  script_src : String
  parameters : List (String × PyValue)
  work_dir : String
  resource_dir : String
  output_dir : String
  task_dir : String
  container : Option ContainerInfo
  container_id : Option String
  container_log : Option String
  state : String
  deriving DecidableEq, Repr

/-- `DockerJob.__init__`: record the inputs (`parameters if parameters
else {}` is the identity on the list model, with `None` mapped to `[]`),
derive `task_dir = resource_dir + "/" + work_dir`, and start with no
container, no container id, no log, and state `NEW`. -/
def DockerJob.init (image : DockerImage) (script_src : String)
    (parameters : List (String × PyValue))
    (work_dir resource_dir output_dir : String) : DockerJob :=
  { image := image, script_src := script_src, parameters := parameters,
    work_dir := work_dir, resource_dir := resource_dir, output_dir := output_dir,
    task_dir := resource_dir ++ "/" ++ work_dir,
    container := none, container_id := none, container_log := none,
    state := DockerJob.STATE_NEW }

/-- `DockerJob._get_script_path`: `path.join(task_dir, TASK_SCRIPT)`. -/
def DockerJob.get_script_path (j : DockerJob) : String :=
  pathJoin j.task_dir DockerJob.TASK_SCRIPT

/-- `DockerJob._get_params_path`: `path.join(task_dir, PARAMS_FILE)`. -/
def DockerJob.get_params_path (j : DockerJob) : String :=
  pathJoin j.task_dir DockerJob.PARAMS_FILE

/-- One `params_file.write` chunk: `"{} = {}\n".format(key, repr(value))`. -/
def paramLine (kv : String × PyValue) : String :=
  kv.1 ++ " = " ++ pyRepr kv.2 ++ "\n"

/-- The container id string the code passes to the client
(`self.container_id`; `none` only arises when no container exists). -/
def DockerJob.cid (j : DockerJob) : String :=
  j.container_id.getD ""

/-- `DockerJob.get_status`: if a container handle exists, inspect the
container and return the runtime's authoritative status (issuing an
inspect request); otherwise return the cached state (issuing nothing). -/
def DockerJob.get_status (rt : Runtime) (j : DockerJob) : String × List ReqEntry :=
  match j.container with
  | some _ =>
      ((rt.inspect_container (DockerJob.cid j)).status,
       [⟨Req.inspect_container (DockerJob.cid j), j.state⟩])
  | none => (j.state, [])

/-- The parameter-injection step of `DockerJob._prepare`: if `parameters`
is non-empty (Python truthiness of the dict), write one `paramLine` chunk
per pair to the params file and prepend `"from params import *\n\n"` to
`script_src`; otherwise do nothing. -/
def DockerJob.withParams (j : DockerJob) : DockerJob × List FileWrite :=
  if j.parameters.isEmpty then (j, [])
  else ({ j with script_src := "from params import *\n\n" ++ j.script_src },
        [⟨DockerJob.get_params_path j, j.parameters.map paramLine⟩])

/-- The arguments `DockerJob._prepare` passes to `client.create_container`:
the image's full name, the two declared volumes, the read-only resource
bind and read-write output bind, networking disabled, the fixed
interpreter entrypoint, and `RESOURCES_DIR + "/" + work_dir` as working
directory. -/
def DockerJob.createArgsOf (j : DockerJob) : CreateArgs :=
  { image := j.image.name,
    volumes := [DockerJob.RESOURCES_DIR, DockerJob.OUTPUT_DIR],
    binds := [⟨j.resource_dir, DockerJob.RESOURCES_DIR, "ro"⟩,
              ⟨j.output_dir, DockerJob.OUTPUT_DIR, "rw"⟩],
    network_disabled := true,
    entrypoint := ["/usr/bin/python", "job.py"],
    working_dir := DockerJob.RESOURCES_DIR ++ "/" ++ j.work_dir }

/-- `DockerJob._prepare`: inject parameters, write the (possibly modified)
script to the script path, request container creation, record the handle
and id on success, and `assert self.container_id` (an empty id raises
`AssertionError` after the fields were assigned). -/
def DockerJob.prepare (rt : Runtime) (j : DockerJob) :
    Except PyErr Unit × DockerJob × List FileWrite × List ReqEntry :=
  let pw := DockerJob.withParams j
  let j1 := pw.1
  let writes := pw.2 ++ [⟨DockerJob.get_script_path j1, [j1.script_src]⟩]
  let args := DockerJob.createArgsOf j1
  match rt.create_container args with
  | Except.error e =>
      (Except.error e, j1, writes, [⟨Req.create_container args, j1.state⟩])
  | Except.ok info =>
      let j2 := { j1 with container := some info, container_id := some info.Id }
      if info.Id = "" then
        (Except.error PyErr.AssertionError, j2, writes,
         [⟨Req.create_container args, j1.state⟩])
      else
        (Except.ok (), j2, writes, [⟨Req.create_container args, j1.state⟩])

/-- `DockerJob.start`: if the reconciled status is `CREATED`, start the
container, re-inspect, cache the reported status and return the
inspection result; otherwise return `None` and do nothing. -/
def DockerJob.start (rt : Runtime) (j : DockerJob) :
    Except PyErr (Option InspectResult) × DockerJob × List ReqEntry :=
  let gs := DockerJob.get_status rt j
  if gs.1 = DockerJob.STATE_CREATED then
    match rt.start_container (DockerJob.cid j) with
    | Except.error e =>
        (Except.error e, j, gs.2 ++ [⟨Req.start (DockerJob.cid j), j.state⟩])
    | Except.ok _ =>
        let res := rt.inspect_container (DockerJob.cid j)
        (Except.ok (some res), { j with state := res.status },
         gs.2 ++ [⟨Req.start (DockerJob.cid j), j.state⟩,
                  ⟨Req.inspect_container (DockerJob.cid j), j.state⟩])
  else (Except.ok none, j, gs.2)

/-- `DockerJob.wait`: if the reconciled status is `RUNNING` or `EXITED`,
block on the container and return its exit code (a natural number, cast
to `Int`); otherwise return the sentinel `-1`. -/
def DockerJob.wait (rt : Runtime) (j : DockerJob) (timeout : Option Nat) :
    Except PyErr Int × DockerJob × List ReqEntry :=
  let gs := DockerJob.get_status rt j
  if gs.1 = DockerJob.STATE_RUNNING ∨ gs.1 = DockerJob.STATE_EXITED then
    match rt.wait_container (DockerJob.cid j) timeout with
    | Except.error e =>
        (Except.error e, j, gs.2 ++ [⟨Req.wait (DockerJob.cid j) timeout, j.state⟩])
    | Except.ok n =>
        (Except.ok (n : Int), j,
         gs.2 ++ [⟨Req.wait (DockerJob.cid j) timeout, j.state⟩])
  else (Except.ok (-1), j, gs.2)

/-- `DockerJob._cleanup`: if no container handle exists, do nothing.
Otherwise reconcile status; if `RUNNING`, kill the container and cache
state `KILLED`; then request forced removal, clear the handle and id, and
cache state `REMOVED`.  Errors raised by the kill or removal calls
propagate, leaving the fields as mutated so far. -/
def DockerJob.cleanup (rt : Runtime) (j : DockerJob) :
    Except PyErr Unit × DockerJob × List ReqEntry :=
  match j.container with
  | none => (Except.ok (), j, [])
  | some _ =>
    let gs := DockerJob.get_status rt j
    if gs.1 = DockerJob.STATE_RUNNING then
      match rt.kill_container (DockerJob.cid j) with
      | Except.error e =>
          (Except.error e, j, gs.2 ++ [⟨Req.kill (DockerJob.cid j), j.state⟩])
      | Except.ok _ =>
        match rt.remove_container (DockerJob.cid j) with
        | Except.error e =>
            (Except.error e, { j with state := DockerJob.STATE_KILLED },
             gs.2 ++ [⟨Req.kill (DockerJob.cid j), j.state⟩,
                      ⟨Req.remove_container (DockerJob.cid j) true, DockerJob.STATE_KILLED⟩])
        | Except.ok _ =>
            (Except.ok (),
             { j with container := none, container_id := none,
                      state := DockerJob.STATE_REMOVED },
             gs.2 ++ [⟨Req.kill (DockerJob.cid j), j.state⟩,
                      ⟨Req.remove_container (DockerJob.cid j) true, DockerJob.STATE_KILLED⟩])
    else
      match rt.remove_container (DockerJob.cid j) with
      | Except.error e =>
          (Except.error e, j,
           gs.2 ++ [⟨Req.remove_container (DockerJob.cid j) true, j.state⟩])
      | Except.ok _ =>
          (Except.ok (),
           { j with container := none, container_id := none,
                    state := DockerJob.STATE_REMOVED },
           gs.2 ++ [⟨Req.remove_container (DockerJob.cid j) true, j.state⟩])

/-- The spec's handle/state invariant, stated over the observable state
(`get_status`): a container handle exists iff the job's state is anything
other than `NEW` or `REMOVED`. -/
def handleStateInv (rt : Runtime) (j : DockerJob) : Prop :=
  j.container.isSome = true ↔
    ((DockerJob.get_status rt j).1 ≠ DockerJob.STATE_NEW ∧
     (DockerJob.get_status rt j).1 ≠ DockerJob.STATE_REMOVED)

/-- The docker status vocabulary assumption: the runtime never reports
`"new"` or `"removed"` as a container's status (its vocabulary is
`created|running|exited|paused|restarting|dead|...`). -/
def statusVocabOk (rt : Runtime) : Prop :=
  ∀ c : String, (rt.inspect_container c).status ≠ DockerJob.STATE_NEW ∧
    (rt.inspect_container c).status ≠ DockerJob.STATE_REMOVED

/-- Number of newline characters in a string. -/
def nlCount (s : String) : Nat := s.data.count (Char.ofNat 10)

/-- A benign runtime: a known image `repo:latest`, container creation
yielding id `cid1`, containers reporting status `created`, and all calls
succeeding. -/
def rtW : Runtime :=
  { inspect_image := fun _ => Except.ok (some ⟨"sha1", ["repo:latest"]⟩),
    create_container := fun _ => Except.ok ⟨"cid1"⟩,
    start_container := fun _ => Except.ok (),
    inspect_container := fun _ => ⟨"created"⟩,
    kill_container := fun _ => Except.ok (),
    remove_container := fun _ => Except.ok (),
    wait_container := fun _ _ => Except.ok 0 }

/-- Like `rtW`, but containers report status `running`. -/
def rtRun : Runtime := { rtW with inspect_container := fun _ => ⟨"running"⟩ }

/-- Like `rtW`, but image inspection returns no metadata (a falsy result). -/
def rtEmptyMeta : Runtime := { rtW with inspect_image := fun _ => Except.ok none }

/-- Like `rtW`, but image inspection raises `NotFound`. -/
def rtNF : Runtime := { rtW with inspect_image := fun _ => Except.error PyErr.NotFound }

/-- Like `rtW`, but container creation raises `APIError`. -/
def rtFailCreate : Runtime :=
  { rtW with create_container := fun _ => Except.error PyErr.APIError }

/-- A concrete validated image record. -/
def imgW : DockerImage := ⟨"repo", none, "latest", "repo:latest"⟩

/-- A freshly constructed job with no parameters. -/
def jW : DockerJob := DockerJob.init imgW "print(1)" [] "job1" "/res" "/out"

/-- A freshly constructed job with two parameters. -/
def jP : DockerJob :=
  DockerJob.init imgW "print(1)" [("x", PyValue.int 3), ("y", PyValue.str "a")]
    "job1" "/res" "/out"

/-- The job obtained by preparing `jW` against `rtW`: it holds container
handle `cid1` while its cached state field is still `new`. -/
def jC : DockerJob := (DockerJob.prepare rtW jW).2.1

/-- `get_status` on a job without a container handle returns the cached
state and issues nothing. -/
theorem get_status_none {rt : Runtime} {j : DockerJob} (h : j.container = none) :
    DockerJob.get_status rt j = (j.state, []) := by
  simp [DockerJob.get_status, h]

/-- `get_status` on a job with a container handle returns the runtime's
status and issues one inspect request. -/
theorem get_status_some {rt : Runtime} {j : DockerJob} {c : ContainerInfo}
    (h : j.container = some c) :
    DockerJob.get_status rt j =
      ((rt.inspect_container (DockerJob.cid j)).status,
       [⟨Req.inspect_container (DockerJob.cid j), j.state⟩]) := by
  simp [DockerJob.get_status, h]

/-- `cleanup` on a job without a container handle is a no-op. -/
theorem cleanup_none {rt : Runtime} {j : DockerJob} (h : j.container = none) :
    DockerJob.cleanup rt j = (Except.ok (), j, []) := by
  simp [DockerJob.cleanup, h]

/-- Case analysis of `cleanup` on a job with a container handle: either it
returns normally with the handle and id cleared and state `REMOVED`, or it
raises with the handle still present. -/
theorem cleanup_cases (rt : Runtime) (j : DockerJob) (c : ContainerInfo)
    (hc : j.container = some c) :
    ((DockerJob.cleanup rt j).1 = Except.ok () ∧
     (DockerJob.cleanup rt j).2.1.container = none ∧
     (DockerJob.cleanup rt j).2.1.container_id = none ∧
     (DockerJob.cleanup rt j).2.1.state = DockerJob.STATE_REMOVED) ∨
    ((∃ e, (DockerJob.cleanup rt j).1 = Except.error e) ∧
     (DockerJob.cleanup rt j).2.1.container = some c) := by
  simp only [DockerJob.cleanup, hc]
  split
  · cases hk : rt.kill_container (DockerJob.cid j) with
    | error e => right; exact ⟨⟨e, by simp [hk]⟩, by simp [hk, hc]⟩
    | ok u =>
      cases hr : rt.remove_container (DockerJob.cid j) with
      | error e => right; exact ⟨⟨e, by simp [hk, hr]⟩, by simp [hk, hr, hc]⟩
      | ok v => left; simp [hk, hr]
  · cases hr : rt.remove_container (DockerJob.cid j) with
    | error e => right; exact ⟨⟨e, by simp [hr]⟩, by simp [hr, hc]⟩
    | ok v => left; simp [hr]

/-- The parameter-injection step leaves every field except `script_src`
unchanged. -/
theorem withParams_fields (j : DockerJob) :
    (DockerJob.withParams j).1.container = j.container ∧
    (DockerJob.withParams j).1.container_id = j.container_id ∧
    (DockerJob.withParams j).1.state = j.state ∧
    (DockerJob.withParams j).1.task_dir = j.task_dir := by
  unfold DockerJob.withParams
  split <;> exact ⟨rfl, rfl, rfl, rfl⟩

/-- The container-creation arguments do not depend on the script source,
so they are unchanged by parameter injection. -/
theorem createArgs_withParams (j : DockerJob) :
    DockerJob.createArgsOf (DockerJob.withParams j).1 = DockerJob.createArgsOf j := by
  unfold DockerJob.withParams
  split <;> rfl

/-- `prepare` keeps the cached state, and leaves the container handle
unchanged unless the creation call returned, in which case the handle
holds the returned record. -/
theorem prepare_job_char (rt : Runtime) (j : DockerJob) :
    (DockerJob.prepare rt j).2.1.state = j.state ∧
    ((DockerJob.prepare rt j).2.1.container = j.container ∨
     ∃ info, (DockerJob.prepare rt j).2.1.container = some info) := by
  obtain ⟨hw1, hw2, hw3, hw4⟩ := withParams_fields j
  simp only [DockerJob.prepare]
  cases hcr : rt.create_container (DockerJob.createArgsOf (DockerJob.withParams j).1) with
  | error e => simp [hcr, hw1, hw3]
  | ok info =>
    simp only [hcr]
    split
    · exact ⟨hw3, Or.inr ⟨info, rfl⟩⟩
    · exact ⟨hw3, Or.inr ⟨info, rfl⟩⟩

/-- The file writes performed by `prepare`: the parameter-injection writes
followed by the script write, independent of the creation outcome. -/
theorem prepare_writes (rt : Runtime) (j : DockerJob) :
    (DockerJob.prepare rt j).2.2.1 =
      (DockerJob.withParams j).2 ++
      [⟨DockerJob.get_script_path (DockerJob.withParams j).1,
        [(DockerJob.withParams j).1.script_src]⟩] := by
  simp only [DockerJob.prepare]
  cases hcr : rt.create_container (DockerJob.createArgsOf (DockerJob.withParams j).1) with
  | error e => simp [hcr]
  | ok info =>
    simp only [hcr]
    split <;> rfl

/-- `start` on a job whose reconciled status is not `CREATED` is a no-op
returning `None`. -/
theorem start_noop {rt : Runtime} {j : DockerJob}
    (h : (DockerJob.get_status rt j).1 ≠ DockerJob.STATE_CREATED) :
    DockerJob.start rt j = (Except.ok none, j, (DockerJob.get_status rt j).2) := by
  unfold DockerJob.start
  rw [if_neg h]

/-- `start` never changes the container handle, and changes the cached
state only to a runtime-reported status. -/
theorem start_job_char (rt : Runtime) (j : DockerJob) :
    (DockerJob.start rt j).2.1.container = j.container ∧
    ((DockerJob.start rt j).2.1 = j ∨
     ((DockerJob.get_status rt j).1 = DockerJob.STATE_CREATED ∧
      (DockerJob.start rt j).2.1.state = (rt.inspect_container (DockerJob.cid j)).status)) := by
  simp only [DockerJob.start]
  by_cases h : (DockerJob.get_status rt j).1 = DockerJob.STATE_CREATED
  · rw [if_pos h]
    cases hs : rt.start_container (DockerJob.cid j) with
    | error e => exact ⟨rfl, Or.inl rfl⟩
    | ok u => exact ⟨rfl, Or.inr ⟨h, rfl⟩⟩
  · rw [if_neg h]
    exact ⟨rfl, Or.inl rfl⟩

/-- `wait` never changes the job record. -/
theorem wait_job_eq (rt : Runtime) (j : DockerJob) (t : Option Nat) :
    (DockerJob.wait rt j t).2.1 = j := by
  simp only [DockerJob.wait]
  by_cases h : (DockerJob.get_status rt j).1 = DockerJob.STATE_RUNNING ∨
      (DockerJob.get_status rt j).1 = DockerJob.STATE_EXITED
  · rw [if_pos h]
    cases hw : rt.wait_container (DockerJob.cid j) t with
    | error e => rfl
    | ok n => rfl
  · rw [if_neg h]

/-- A job holding a container handle satisfies the handle/state invariant,
given the runtime status vocabulary assumption. -/
theorem inv_of_some (rt : Runtime) (hv : statusVocabOk rt) {j : DockerJob}
    {c : ContainerInfo} (h : j.container = some c) : handleStateInv rt j := by
  unfold handleStateInv
  rw [get_status_some h]
  constructor
  · intro _
    exact hv (DockerJob.cid j)
  · intro _
    simp [h]

/-- For a job without a container handle, the handle/state invariant says
exactly that the cached state is `NEW` or `REMOVED`. -/
theorem inv_none_iff (rt : Runtime) {j : DockerJob} (h : j.container = none) :
    handleStateInv rt j ↔
      (j.state = DockerJob.STATE_NEW ∨ j.state = DockerJob.STATE_REMOVED) := by
  unfold handleStateInv
  rw [get_status_none h]
  simp [h]
  tauto

/-- The `id` field of a freshly computed image record is the supplied id. -/
theorem mkImage0_id (repository : String) (id tag : Option String) :
    (mkImage0 repository id tag).id = id := rfl

/-- A successfully constructed image reference passes `_check`. -/
theorem construct_ok_check (rt : Runtime) (repo : String) (id tag : Option String)
    (img : DockerImage) (h : DockerImage.construct rt repo id tag = Except.ok img) :
    DockerImage.check rt img = Except.ok true := by
  unfold DockerImage.construct at h
  cases hch : DockerImage.check rt (mkImage0 repo id tag) with
  | error e =>
    simp only [hch] at h
    exact Except.noConfusion h
  | ok b =>
    cases b with
    | true =>
      simp only [hch] at h
      injection h with h2
      rw [← h2]
      exact hch
    | false =>
      simp only [hch] at h
      exact Except.noConfusion h

/-- Claim C5 as stated is false: when the runtime returns no metadata for
the queried name, construction fails with `AssertionError` (from
`assert info`), not with the `ValueError` validation failure. -/
theorem claim_C5_counterexample :
    rtEmptyMeta.inspect_image "repo:latest" = Except.ok none ∧
    DockerImage.construct rtEmptyMeta "repo" none none = Except.error PyErr.AssertionError ∧
    DockerImage.construct rtEmptyMeta "repo" none none ≠ Except.error PyErr.ValueError := by
  refine ⟨rfl, rfl, ?_⟩
  intro h
  rw [show DockerImage.construct rtEmptyMeta "repo" none none =
        Except.error PyErr.AssertionError from rfl] at h
  injection h with h2
  exact PyErr.noConfusion h2

/-- Claim C5 (amended): image reference construction always fails when the
runtime returns no metadata for the queried name/id (with `AssertionError`
rather than a validation failure), fails with the `ValueError` validation
failure when the computed full name is absent from the metadata's tag set
or a supplied id differs from the reported identifier, and a constructed
reference always passes the validation check, so no reference exists in
an invalid state. -/
theorem claim_C5_amended (rt : Runtime) (repo : String) (id tag : Option String) :
    (rt.inspect_image (lookupKey (mkImage0 repo id tag)) = Except.ok none →
      DockerImage.construct rt repo id tag = Except.error PyErr.AssertionError) ∧
    (∀ info : ImageInfo,
      rt.inspect_image (lookupKey (mkImage0 repo id tag)) = Except.ok (some info) →
      info.RepoTags.contains (mkImage0 repo id tag).name = false →
      DockerImage.construct rt repo id tag = Except.error PyErr.ValueError) ∧
    (∀ (info : ImageInfo) (s : String),
      rt.inspect_image (lookupKey (mkImage0 repo id tag)) = Except.ok (some info) →
      id = some s → info.Id ≠ s →
      DockerImage.construct rt repo id tag = Except.error PyErr.ValueError) ∧
    (∀ img : DockerImage, DockerImage.construct rt repo id tag = Except.ok img →
      DockerImage.check rt img = Except.ok true) := by
  refine ⟨?_, ?_, ?_, fun img h => construct_ok_check rt repo id tag img h⟩
  · intro hmeta
    unfold DockerImage.construct DockerImage.check
    simp only [hmeta]
  · intro info hmeta habsent
    unfold DockerImage.construct DockerImage.check
    simp only [hmeta, habsent, Bool.false_and]
  · intro info s hmeta hid hne
    subst hid
    unfold DockerImage.construct DockerImage.check
    have hb : (info.Id == s) = false := beq_eq_false_iff_ne.mpr hne
    simp only [hmeta, mkImage0_id, hb, Bool.and_false]

/-- Claim C5 (amended) exercised at a concrete runtime that returns no
metadata: construction fails with `AssertionError`. -/
theorem claim_C5_witness :
    DockerImage.construct rtEmptyMeta "repo" none none =
      Except.error PyErr.AssertionError :=
  (claim_C5_amended rtEmptyMeta "repo" none none).1 rfl

/-- The availability probe's error conversion yields `False`, the re-raised
`APIError`, or the uncaught `AssertionError` - nothing else. -/
theorem handleAvailErr_cases (tag : Option String) (e : PyErr) :
    DockerImage.handleAvailErr tag e = Except.ok false ∨
    DockerImage.handleAvailErr tag e = Except.error PyErr.APIError ∨
    DockerImage.handleAvailErr tag e = Except.error PyErr.AssertionError := by
  cases e with
  | NotFound => left; rfl
  | APIError =>
    by_cases ht : tag = none
    · right; left; simp [DockerImage.handleAvailErr, ht]
    · left; simp [DockerImage.handleAvailErr, ht]
  | ValueError => left; rfl
  | AssertionError => right; right; rfl

/-- `is_available` maps a raised error through the `except` clauses. -/
theorem is_available_of_error (rt : Runtime) (repo : String) (id tag : Option String)
    (e : PyErr) (he : DockerImage.construct rt repo id tag = Except.error e) :
    DockerImage.is_available rt repo id tag = DockerImage.handleAvailErr tag e := by
  unfold DockerImage.is_available
  simp only [he]

/-- `is_available` returns `True` when construction succeeded. -/
theorem is_available_of_ok (rt : Runtime) (repo : String) (id tag : Option String)
    (img : DockerImage) (hi : DockerImage.construct rt repo id tag = Except.ok img) :
    DockerImage.is_available rt repo id tag = Except.ok true := by
  unfold DockerImage.is_available
  simp only [hi, construct_ok_check rt repo id tag img hi]

/-- Claim C6: `is_available` never propagates `NotFound` or the validation
failure (both become `False`); a generic `APIError` becomes `False`
exactly when a tag was explicitly specified and propagates otherwise; and
probing a name the runtime reports as not found returns `False`. -/
theorem claim_C6 (rt : Runtime) (repo : String) (id tag : Option String) :
    DockerImage.is_available rt repo id tag ≠ Except.error PyErr.NotFound ∧
    DockerImage.is_available rt repo id tag ≠ Except.error PyErr.ValueError ∧
    (DockerImage.construct rt repo id tag = Except.error PyErr.NotFound →
      DockerImage.is_available rt repo id tag = Except.ok false) ∧
    (DockerImage.construct rt repo id tag = Except.error PyErr.ValueError →
      DockerImage.is_available rt repo id tag = Except.ok false) ∧
    (tag ≠ none → DockerImage.construct rt repo id tag = Except.error PyErr.APIError →
      DockerImage.is_available rt repo id tag = Except.ok false) ∧
    (tag = none → DockerImage.construct rt repo id tag = Except.error PyErr.APIError →
      DockerImage.is_available rt repo id tag = Except.error PyErr.APIError) ∧
    (rt.inspect_image (lookupKey (mkImage0 repo id tag)) = Except.error PyErr.NotFound →
      DockerImage.is_available rt repo id tag = Except.ok false) := by
  refine ⟨?_, ?_, ?_, ?_, ?_, ?_, ?_⟩
  · cases hco : DockerImage.construct rt repo id tag with
    | ok img =>
      rw [is_available_of_ok rt repo id tag img hco]
      decide
    | error e =>
      rw [is_available_of_error rt repo id tag e hco]
      rcases handleAvailErr_cases tag e with h | h | h <;> rw [h] <;> decide
  · cases hco : DockerImage.construct rt repo id tag with
    | ok img =>
      rw [is_available_of_ok rt repo id tag img hco]
      decide
    | error e =>
      rw [is_available_of_error rt repo id tag e hco]
      rcases handleAvailErr_cases tag e with h | h | h <;> rw [h] <;> decide
  · intro h
    rw [is_available_of_error rt repo id tag PyErr.NotFound h]
    rfl
  · intro h
    rw [is_available_of_error rt repo id tag PyErr.ValueError h]
    rfl
  · intro ht h
    rw [is_available_of_error rt repo id tag PyErr.APIError h]
    simp [DockerImage.handleAvailErr, ht]
  · intro ht h
    rw [is_available_of_error rt repo id tag PyErr.APIError h]
    simp [DockerImage.handleAvailErr, ht]
  · intro h
    have hco : DockerImage.construct rt repo id tag = Except.error PyErr.NotFound := by
      unfold DockerImage.construct DockerImage.check
      simp only [h]
    rw [is_available_of_error rt repo id tag PyErr.NotFound hco]
    rfl

/-- Claim C6 exercised at a concrete runtime raising `NotFound` for a
probed tag: the probe returns `False` instead of raising. -/
theorem claim_C6_witness :
    DockerImage.is_available rtNF "repo" none (some "missing") = Except.ok false :=
  (claim_C6 rtNF "repo" none (some "missing")).2.2.2.2.2.2 rfl

/-- Claim C7: when the runtime knows an image whose tag set contains the
computed full name and any supplied id matches the reported identifier,
construction succeeds with full name `repository:tag`, the tag defaulting
to `latest` when absent. -/
theorem claim_C7 (rt : Runtime) (repo : String) (id tag : Option String) (info : ImageInfo)
    (hmeta : rt.inspect_image (lookupKey (mkImage0 repo id tag)) = Except.ok (some info))
    (hname : info.RepoTags.contains (mkImage0 repo id tag).name = true)
    (hid : ∀ s, id = some s → info.Id = s) :
    DockerImage.construct rt repo id tag = Except.ok (mkImage0 repo id tag) ∧
    (∀ t, tag = some t → t ≠ "" → (mkImage0 repo id tag).name = repo ++ ":" ++ t) ∧
    (tag = none → (mkImage0 repo id tag).name = repo ++ ":" ++ "latest") := by
  refine ⟨?_, ?_, ?_⟩
  · unfold DockerImage.construct DockerImage.check
    have hb : (match (mkImage0 repo id tag).id with
               | none => true
               | some s => info.Id == s) = true := by
      rw [mkImage0_id]
      cases hcase : id with
      | none => rfl
      | some s =>
        exact beq_iff_eq.mpr (hid s hcase)
    simp only [hmeta, hname, hb, Bool.and_true]
  · intro t ht hne
    subst ht
    unfold mkImage0
    simp [hne]
  · intro ht
    subst ht
    rfl

/-- Claim C7 exercised at a concrete runtime knowing `repo:latest`. -/
theorem claim_C7_witness :
    DockerImage.construct rtW "repo" none none = Except.ok (mkImage0 "repo" none none) :=
  (claim_C7 rtW "repo" none none ⟨"sha1", ["repo:latest"]⟩ rfl (by decide)
    (fun s h => Option.noConfusion h)).1

/-- The runtime status vocabulary assumption holds for the benign concrete
runtime `rtW`. -/
theorem rtW_vocab : statusVocabOk rtW := by
  intro c
  refine ⟨?_, ?_⟩
  · show ("created" : String) ≠ DockerJob.STATE_NEW
    decide
  · show ("created" : String) ≠ DockerJob.STATE_REMOVED
    decide

/-- Claim C1: a container handle exists iff the job's (observable) state is
anything other than `NEW` or `REMOVED`, after construction and after each
driver operation, assuming the runtime reports statuses from the docker
vocabulary (never `new` or `removed`). -/
theorem claim_C1 (rt : Runtime) (hv : statusVocabOk rt) :
    (∀ img scr ps wd rd od, handleStateInv rt (DockerJob.init img scr ps wd rd od)) ∧
    (∀ j, handleStateInv rt j → handleStateInv rt (DockerJob.prepare rt j).2.1) ∧
    (∀ j, handleStateInv rt j → handleStateInv rt (DockerJob.start rt j).2.1) ∧
    (∀ j t, handleStateInv rt j → handleStateInv rt (DockerJob.wait rt j t).2.1) ∧
    (∀ j, handleStateInv rt j → handleStateInv rt (DockerJob.cleanup rt j).2.1) := by
  refine ⟨?_, ?_, ?_, ?_, ?_⟩
  · intro img scr ps wd rd od
    rw [inv_none_iff rt (show (DockerJob.init img scr ps wd rd od).container = none from rfl)]
    left
    rfl
  · intro j hj
    obtain ⟨hst, hcon⟩ := prepare_job_char rt j
    rcases hcon with hsame | ⟨info, hsome⟩
    · cases hc : j.container with
      | none =>
        rw [inv_none_iff rt (hsame.trans hc), hst]
        exact (inv_none_iff rt hc).mp hj
      | some c => exact inv_of_some rt hv (hsame.trans hc)
    · exact inv_of_some rt hv hsome
  · intro j hj
    obtain ⟨hcon, hres⟩ := start_job_char rt j
    cases hc : j.container with
    | some c => exact inv_of_some rt hv (hcon.trans hc)
    | none =>
      rcases hres with heq | ⟨hcreated, _⟩
      · rw [heq]
        exact hj
      · rw [get_status_none hc] at hcreated
        rcases (inv_none_iff rt hc).mp hj with h1 | h1 <;> rw [h1] at hcreated <;>
          exact absurd hcreated (by decide)
  · intro j t hj
    rw [wait_job_eq rt j t]
    exact hj
  · intro j hj
    cases hc : j.container with
    | none =>
      rw [cleanup_none hc]
      exact hj
    | some c =>
      rcases cleanup_cases rt j c hc with ⟨_, h1, _, h3⟩ | ⟨_, h2⟩
      · rw [inv_none_iff rt h1, h3]
        right
        rfl
      · exact inv_of_some rt hv h2

/-- Claim C1 exercised: the invariant holds after cleaning up a freshly
constructed job against the benign runtime. -/
theorem claim_C1_witness : handleStateInv rtW (DockerJob.cleanup rtW jW).2.1 :=
  (claim_C1 rtW rtW_vocab).2.2.2.2 jW (by unfold handleStateInv; decide)

/-- Claim C2: after a `cleanup` that returned normally, a second `cleanup`
(against any runtime) issues no requests and changes nothing; and a
`cleanup` on a job with no container handle does nothing. -/
theorem claim_C2 (rt rt2 : Runtime) (j : DockerJob)
    (h : (DockerJob.cleanup rt j).1 = Except.ok ()) :
    DockerJob.cleanup rt2 (DockerJob.cleanup rt j).2.1 =
      (Except.ok (), (DockerJob.cleanup rt j).2.1, []) ∧
    (j.container = none → DockerJob.cleanup rt j = (Except.ok (), j, [])) := by
  constructor
  · apply cleanup_none
    cases hc : j.container with
    | none =>
      rw [cleanup_none hc]
      exact hc
    | some c =>
      rcases cleanup_cases rt j c hc with ⟨_, h1, _, _⟩ | ⟨⟨e, he⟩, _⟩
      · exact h1
      · rw [he] at h
        exact Except.noConfusion h
  · intro hc
    exact cleanup_none hc

/-- Claim C2 exercised: after killing and removing a running container,
a second `cleanup` is a no-op. -/
theorem claim_C2_witness :
    DockerJob.cleanup rtW (DockerJob.cleanup rtRun jC).2.1 =
      (Except.ok (), (DockerJob.cleanup rtRun jC).2.1, []) :=
  (claim_C2 rtRun rtW jC (by decide)).1

/-- Claim C3: after a normally returning `cleanup` on a job with a
container handle, `get_status` returns `REMOVED` (querying nothing) and
neither the handle nor the container identifier is retained. -/
theorem claim_C3 (rt rt2 : Runtime) (j : DockerJob) (c : ContainerInfo)
    (hc : j.container = some c) (h : (DockerJob.cleanup rt j).1 = Except.ok ()) :
    DockerJob.get_status rt2 (DockerJob.cleanup rt j).2.1 =
      (DockerJob.STATE_REMOVED, []) ∧
    (DockerJob.cleanup rt j).2.1.container_id = none ∧
    (DockerJob.cleanup rt j).2.1.container = none := by
  rcases cleanup_cases rt j c hc with ⟨_, h1, h2, h3⟩ | ⟨⟨e, he⟩, _⟩
  · refine ⟨?_, h2, h1⟩
    rw [get_status_none h1, h3]
  · rw [he] at h
    exact Except.noConfusion h

/-- Claim C3 exercised at the concrete prepared job. -/
theorem claim_C3_witness :
    DockerJob.get_status rtW (DockerJob.cleanup rtRun jC).2.1 =
      (DockerJob.STATE_REMOVED, []) :=
  (claim_C3 rtRun rtW jC ⟨"cid1"⟩ (by decide) (by decide)).1

/-- Claim C4: on a job with a container handle, if the reconciled status is
`RUNNING` (and the kill call returns), `cleanup` issues the kill before the
forced removal and the cached state at the moment removal is issued is
`KILLED`; if the status is not `RUNNING`, the forced removal is issued
without a kill.  In both cases the forced removal request is issued. -/
theorem claim_C4 (rt : Runtime) (j : DockerJob) (c : ContainerInfo)
    (hc : j.container = some c) :
    ((rt.inspect_container (DockerJob.cid j)).status = DockerJob.STATE_RUNNING →
      rt.kill_container (DockerJob.cid j) = Except.ok () →
      (DockerJob.cleanup rt j).2.2 =
        [⟨Req.inspect_container (DockerJob.cid j), j.state⟩,
         ⟨Req.kill (DockerJob.cid j), j.state⟩,
         ⟨Req.remove_container (DockerJob.cid j) true, DockerJob.STATE_KILLED⟩]) ∧
    ((rt.inspect_container (DockerJob.cid j)).status ≠ DockerJob.STATE_RUNNING →
      (DockerJob.cleanup rt j).2.2 =
        [⟨Req.inspect_container (DockerJob.cid j), j.state⟩,
         ⟨Req.remove_container (DockerJob.cid j) true, j.state⟩]) := by
  constructor
  · intro hrun hkill
    cases hrr : rt.remove_container (DockerJob.cid j) with
    | error e => simp [DockerJob.cleanup, hc, DockerJob.get_status, hrun, hkill, hrr]
    | ok v => simp [DockerJob.cleanup, hc, DockerJob.get_status, hrun, hkill, hrr]
  · intro hrun
    cases hrr : rt.remove_container (DockerJob.cid j) with
    | error e => simp [DockerJob.cleanup, hc, DockerJob.get_status, hrun, hrr]
    | ok v => simp [DockerJob.cleanup, hc, DockerJob.get_status, hrun, hrr]

/-- Claim C4 exercised: cleaning up the prepared job while the runtime
reports it running issues inspect, kill, then forced removal with cached
state `KILLED`. -/
theorem claim_C4_witness :
    (DockerJob.cleanup rtRun jC).2.2 =
      [⟨Req.inspect_container (DockerJob.cid jC), jC.state⟩,
       ⟨Req.kill (DockerJob.cid jC), jC.state⟩,
       ⟨Req.remove_container (DockerJob.cid jC) true, DockerJob.STATE_KILLED⟩] :=
  (claim_C4 rtRun jC ⟨"cid1"⟩ (by decide)).1 (by decide) (by decide)

/-- Newline counting distributes over string append. -/
theorem nlCount_append (a b : String) : nlCount (a ++ b) = nlCount a + nlCount b := by
  cases a with
  | mk l =>
    cases b with
    | mk m =>
      show nlCount ⟨l ++ m⟩ = nlCount ⟨l⟩ + nlCount ⟨m⟩
      unfold nlCount
      exact List.count_append (Char.ofNat 10) l m

/-- Claim C8: with non-empty parameters, `prepare` writes the parameters
file into the task directory with exactly one assignment chunk per
key/value pair (each a single `name = literal-value` line when the key and
the value's representation are newline-free), and writes the script file
with the import line prepended; with empty parameters it writes only the
unmodified script. -/
theorem claim_C8 (rt : Runtime) (j : DockerJob) (_hnew : j.state = DockerJob.STATE_NEW) :
    (j.parameters ≠ [] →
      (DockerJob.prepare rt j).2.2.1 =
        [⟨DockerJob.get_params_path j, j.parameters.map paramLine⟩,
         ⟨DockerJob.get_script_path j, ["from params import *\n\n" ++ j.script_src]⟩] ∧
      ∀ kv ∈ j.parameters, nlCount kv.1 = 0 → nlCount (pyRepr kv.2) = 0 →
        nlCount (paramLine kv) = 1) ∧
    (j.parameters = [] →
      (DockerJob.prepare rt j).2.2.1 =
        [⟨DockerJob.get_script_path j, [j.script_src]⟩]) := by
  constructor
  · intro hne
    constructor
    · rw [prepare_writes rt j]
      have hno : j.parameters.isEmpty = false := by
        cases hp : j.parameters with
        | nil => exact absurd hp hne
        | cons a l => rfl
      simp only [DockerJob.withParams, hno, Bool.false_eq_true, if_false]
      rfl
    · intro kv hkv h1 h2
      unfold paramLine
      rw [nlCount_append, nlCount_append, nlCount_append, h1, h2]
      decide
  · intro hemp
    rw [prepare_writes rt j]
    simp only [DockerJob.withParams, hemp, List.isEmpty_nil, if_true]
    rfl

/-- Claim C8 exercised at a job with two parameters. -/
theorem claim_C8_witness :
    (DockerJob.prepare rtW jP).2.2.1 =
      [⟨DockerJob.get_params_path jP, jP.parameters.map paramLine⟩,
       ⟨DockerJob.get_script_path jP, ["from params import *\n\n" ++ jP.script_src]⟩] :=
  ((claim_C8 rtW jP rfl).1 (by decide)).1

/-- Claim C9 as stated is false: on a job holding a container handle whose
reconciled status is neither `RUNNING` nor `EXITED` (here `created`),
`wait` does contact the runtime - it issues the inspect request that
reconciliation requires. -/
theorem claim_C9_counterexample :
    (DockerJob.get_status rtW jC).1 ≠ DockerJob.STATE_RUNNING ∧
    (DockerJob.get_status rtW jC).1 ≠ DockerJob.STATE_EXITED ∧
    (DockerJob.wait rtW jC none).2.2 ≠ [] := by
  refine ⟨?_, ?_, ?_⟩ <;> decide

/-- Claim C9 (amended): when the reconciled status is neither `RUNNING` nor
`EXITED`, `wait` does not fail and issues no blocking wait request - the
only runtime contact is the status reconciliation itself - returning the
sentinel `-1`, which is distinct from every real exit code (exit codes
returned when the status is `RUNNING` or `EXITED` are nonnegative). -/
theorem claim_C9_amended (rt : Runtime) (j : DockerJob) (t : Option Nat)
    (h1 : (DockerJob.get_status rt j).1 ≠ DockerJob.STATE_RUNNING)
    (h2 : (DockerJob.get_status rt j).1 ≠ DockerJob.STATE_EXITED) :
    DockerJob.wait rt j t = (Except.ok (-1), j, (DockerJob.get_status rt j).2) ∧
    (∀ e ∈ (DockerJob.wait rt j t).2.2, ∀ c tmo, e.req ≠ Req.wait c tmo) ∧
    (∀ (rt2 : Runtime) (j2 : DockerJob) (t2 : Option Nat) (n : Int),
      ((DockerJob.get_status rt2 j2).1 = DockerJob.STATE_RUNNING ∨
       (DockerJob.get_status rt2 j2).1 = DockerJob.STATE_EXITED) →
      (DockerJob.wait rt2 j2 t2).1 = Except.ok n → 0 ≤ n) ∧
    ¬ (0 ≤ (-1 : Int)) := by
  have hcond : ¬ ((DockerJob.get_status rt j).1 = DockerJob.STATE_RUNNING ∨
      (DockerJob.get_status rt j).1 = DockerJob.STATE_EXITED) := by
    rintro (h | h)
    exacts [h1 h, h2 h]
  have hw : DockerJob.wait rt j t = (Except.ok (-1), j, (DockerJob.get_status rt j).2) := by
    simp only [DockerJob.wait]
    rw [if_neg hcond]
  refine ⟨hw, ?_, ?_, by decide⟩
  · rw [hw]
    cases hc : j.container with
    | none =>
      rw [get_status_none hc]
      simp
    | some c =>
      rw [get_status_some hc]
      intro e he c2 to2
      simp only [List.mem_singleton] at he
      rw [he]
      intro hcontra
      exact Req.noConfusion hcontra
  · intro rt2 j2 t2 n hcond2 hok
    simp only [DockerJob.wait] at hok
    rw [if_pos hcond2] at hok
    cases hwc : rt2.wait_container (DockerJob.cid j2) t2 with
    | error e2 =>
      rw [hwc] at hok
      exact Except.noConfusion hok
    | ok m =>
      rw [hwc] at hok
      have h3 : Except.ok ((m : Nat) : Int) = Except.ok n := hok
      injection h3 with h4
      rw [← h4]
      exact Int.natCast_nonneg m

/-- Claim C9 (amended) exercised at the prepared job whose runtime status
is `created`. -/
theorem claim_C9_witness :
    DockerJob.wait rtW jC none = (Except.ok (-1), jC, (DockerJob.get_status rtW jC).2) :=
  (claim_C9_amended rtW jC none (by decide) (by decide)).1

/-- Claim C10: if the container-creation call raises during `prepare`, the
job's handle and identifier stay absent, the subsequent `cleanup` is a
no-op issuing no requests, and the handle and identifier are assigned
exactly when the creation call returns. -/
theorem claim_C10 (rt rt2 : Runtime) (j : DockerJob) (e : PyErr)
    (h0 : j.container = none) (h0id : j.container_id = none)
    (hfail : rt.create_container (DockerJob.createArgsOf j) = Except.error e) :
    (DockerJob.prepare rt j).1 = Except.error e ∧
    (DockerJob.prepare rt j).2.1.container = none ∧
    (DockerJob.prepare rt j).2.1.container_id = none ∧
    DockerJob.cleanup rt2 (DockerJob.prepare rt j).2.1 =
      (Except.ok (), (DockerJob.prepare rt j).2.1, []) ∧
    (∀ (rt3 : Runtime) (info : ContainerInfo),
      rt3.create_container (DockerJob.createArgsOf j) = Except.ok info →
      (DockerJob.prepare rt3 j).2.1.container = some info ∧
      (DockerJob.prepare rt3 j).2.1.container_id = some info.Id) := by
  obtain ⟨hw1, hw2, hw3, hw4⟩ := withParams_fields j
  have hfail2 : rt.create_container
      (DockerJob.createArgsOf (DockerJob.withParams j).1) = Except.error e := by
    rw [createArgs_withParams]
    exact hfail
  have hprep1 : (DockerJob.prepare rt j).1 = Except.error e := by
    simp only [DockerJob.prepare, hfail2]
  have hprep2 : (DockerJob.prepare rt j).2.1 = (DockerJob.withParams j).1 := by
    simp only [DockerJob.prepare, hfail2]
  have hcnone : (DockerJob.prepare rt j).2.1.container = none := by
    rw [hprep2]
    exact hw1.trans h0
  have hidnone : (DockerJob.prepare rt j).2.1.container_id = none := by
    rw [hprep2]
    exact hw2.trans h0id
  refine ⟨hprep1, hcnone, hidnone, cleanup_none hcnone, ?_⟩
  intro rt3 info hok
  have hok2 : rt3.create_container
      (DockerJob.createArgsOf (DockerJob.withParams j).1) = Except.ok info := by
    rw [createArgs_withParams]
    exact hok
  constructor
  · simp only [DockerJob.prepare, hok2]
    split <;> rfl
  · simp only [DockerJob.prepare, hok2]
    split <;> rfl

/-- Claim C10 exercised at a runtime whose creation call raises. -/
theorem claim_C10_witness :
    DockerJob.cleanup rtW (DockerJob.prepare rtFailCreate jW).2.1 =
      (Except.ok (), (DockerJob.prepare rtFailCreate jW).2.1, []) :=
  (claim_C10 rtFailCreate rtW jW PyErr.APIError rfl rfl rfl).2.2.2.1
